import Mathlib

/-!
Verification of `data_stream` (src/data_stream/data_stream.py), a tunnel-backed
HTTP streaming proxy.  The Python source is shallowly embedded below: the
request handler `proxy_data`, the SSH config resolver, the `/health` endpoint,
and the service start/stop lifecycle become pure Lean functions over explicit
state, and the upstream HTTP fetch becomes an explicit outcome value.
-/

namespace DataStream

/-! ## Settings (class `Settings`, data_stream.py lines 24-38)

`Optional[str]` fields are `Option String`; ports are `Nat`. -/

structure Settings where
  ssh_host_alias : Option String := none
  ssh_host : Option String := none
  ssh_username : Option String := none
  ssh_key_path : Option String := none
  data_path : String
  local_port : Nat := 8000
  remote_port : Nat := 8001
  fastapi_port : Nat := 5000
  deriving Repr, DecidableEq

/-! ## SSHConfig dataclass (lines 41-46)

The Python dataclass annotates `hostname: str` and `username: str`, but the
annotations are not enforced at runtime and both construction sites can pass
`None` (`host_config.get('user')` at line 66, `self.settings.ssh_host` /
`ssh_username` at lines 93-94), so the faithful field type is `Option String`. -/

structure SSHConfig where
  hostname : Option String
  username : Option String
  key_filename : Option String := none
  port : Nat := 22
  deriving Repr, DecidableEq

/-! ## SSH config file (paramiko `SSHConfig.lookup`, used at line 63)

A lookup result for one alias: paramiko may or may not supply `hostname`,
`user`, `identityfile` (a list of paths) and `port`.  The whole config file is
embedded as the lookup function `String → HostEntry`. -/

structure HostEntry where
  hostname : Option String := none
  user : Option String := none
  identityfile : List String := []
  port : Option Nat := none
  deriving Repr, DecidableEq

/-- `SSHConfigProvider.get_ssh_config` (lines 62-69):
`hostname = host_config.get('hostname', host_alias)`,
`username = host_config.get('user')`,
`key_filename = host_config.get('identityfile', [None])[0]`,
`port = int(host_config.get('port', 22))`. -/
def get_ssh_config (lookup : String → HostEntry) (host_alias : String) : SSHConfig :=
  let hc := lookup host_alias
  { hostname := some (hc.hostname.getD host_alias)
    username := hc.user
    key_filename := hc.identityfile.head?
    port := hc.port.getD 22 }

/-- Python truthiness of an `Optional[str]`: `None` and `""` are falsy. -/
def optStrTruthy : Option String → Bool
  | none => false
  | some s => s ≠ ""

/-- The branch condition of `_get_ssh_config` (line 85):
`if self.settings.ssh_host_alias:` — Python truthiness, not an `is not None`
test. -/
def aliasBranchTaken (st : Settings) : Bool :=
  optStrTruthy st.ssh_host_alias

/-- `DataProxyService._get_ssh_config` (lines 84-96): alias branch uses the
config-file lookup; otherwise the explicit settings fields are used directly
(port left at the dataclass default 22). -/
def serviceGetSshConfig (lookup : String → HostEntry) (st : Settings) : SSHConfig :=
  if aliasBranchTaken st then
    get_ssh_config lookup (st.ssh_host_alias.getD "")
  else
    { hostname := st.ssh_host
      username := st.ssh_username
      key_filename := st.ssh_key_path
      port := 22 }

/-! ## Health endpoint (`health_check`, lines 184-194) -/

structure HealthConnection where
  hostname : Option String
  username : Option String
  using_ssh_config : Bool
  deriving Repr, DecidableEq

/-- `health_check` (lines 184-194): reports the resolved config's hostname and
username, and `using_ssh_config = (settings.ssh_host_alias is not None)`
(line 192) — an `is not None` test, unlike the resolver's truthiness branch. -/
def health_check (lookup : String → HostEntry) (st : Settings) : HealthConnection :=
  let sc := serviceGetSshConfig lookup st
  { hostname := sc.hostname
    username := sc.username
    using_ssh_config := st.ssh_host_alias ≠ none }

/-! ## HTTP proxy handler (`proxy_data`, lines 161-182)

The upstream fetch `await client.get(url)` either returns an httpx response
(status code, headers, fully-read body — `client.get` without `stream=True`
reads the entire body into `response.content` before returning) or raises an
`httpx.HTTPError` carrying a message. -/

structure UpstreamResponse where
  status_code : Nat
  headers : List (String × String)
  body : List Nat
  deriving Repr, DecidableEq

inductive FetchResult where
  | ok (resp : UpstreamResponse)
  | transportError (msg : String)
  deriving Repr, DecidableEq

/-- Case-insensitive header lookup, as in `response.headers.get('content-type')`
(httpx `Headers` are case-insensitive; first match returned). -/
def headerGet (hs : List (String × String)) (key : String) : Option String :=
  (hs.find? (fun p => p.1.toLower == key.toLower)).map (·.2)

/-- The header filter at line 178:
`{k: v for k, v in response.headers.items() if k.lower() != 'content-length'}`. -/
def forwardedHeaders (hs : List (String × String)) : List (String × String) :=
  hs.filter (fun p => p.1.toLower ≠ "content-length")

/-- Result of one `GET /data/{filename}` call as seen by the caller:
either a FastAPI `HTTPException` (status, detail) or a `StreamingResponse`
(status 200 by default, media type, headers, streamed body bytes). -/
inductive ProxyResult where
  | httpError (status : Nat) (detail : String)
  | stream (status : Nat) (media_type : Option String)
      (headers : List (String × String)) (body : List Nat)
  deriving Repr, DecidableEq

/-- `proxy_data` (lines 161-182).  On an `httpx.HTTPError` the handler raises
`HTTPException(500, str(e))` (lines 180-182).  On upstream 404 it raises
`HTTPException(404, "File not found")` (lines 168-169); that `HTTPException`
is not an `httpx.HTTPError`, so the `except` clause does not intercept it.
Otherwise it returns a `StreamingResponse` (default status 200) whose media
type is the upstream content-type, whose headers are every upstream header
except content-length, and whose body is the upstream body. -/
def proxy_data (fetch : FetchResult) : ProxyResult :=
  match fetch with
  | .transportError e => .httpError 500 e
  | .ok resp =>
    if resp.status_code == 404 then
      .httpError 404 "File not found"
    else
      .stream 200 (headerGet resp.headers "content-type")
        (forwardedHeaders resp.headers) resp.body

/-- Bytes held in the handler's memory once `await client.get(url)` (line 166)
returns: `client.get` without `stream=True` performs a full `aread`, so the
whole upstream body sits in `response.content`; `response.aiter_bytes()`
(line 172) then merely re-iterates that already-materialized buffer. -/
def handlerBufferedBytes (fetch : FetchResult) : Nat :=
  match fetch with
  | .ok resp => resp.body.length
  | .transportError _ => 0

/-! ## Service lifecycle (`DataProxyService`, lines 75-143)

Mutable attributes of the service instance: the httpx client opened in
`__init__` (line 80), `self.ssh_client` and `self.tunnel` (both `None` until
`start` assigns them).  `some b` models an assigned object whose
open/active flag is `b`. -/

structure ServiceState where
  client_open : Bool
  ssh_client : Option Bool
  tunnel : Option Bool
  deriving Repr, DecidableEq

/-- The state right after `DataProxyService.__init__` (lines 76-82): httpx
client open, no ssh client, no tunnel. -/
def initState : ServiceState :=
  { client_open := true, ssh_client := none, tunnel := none }

/-- `DataProxyService.stop` (lines 138-143): `await self.client.aclose()`;
`if self.ssh_client: self.ssh_client.close()`; `if self.tunnel:
self.tunnel.stop()`.  Each close is idempotent in its library, so `stop`
never raises; attributes stay assigned but closed. -/
def stop (s : ServiceState) : ServiceState :=
  { client_open := false
    ssh_client := s.ssh_client.map (fun _ => false)
    tunnel := s.tunnel.map (fun _ => false) }

/-- Which step of `DataProxyService.start` (lines 98-136) fails, if any:
the `SSHTunnelForwarder(...)` constructor (line 103), `tunnel.start()`
(line 111), `ssh_client.connect(...)` (line 117), either `exec_command`
(lines 125, 129), or no failure. -/
inductive StartFailure where
  | tunnelCreate
  | tunnelStart
  | sshConnect
  | execKill
  | execLaunch
  | noFailure
  deriving Repr, DecidableEq

/-- The service state at the moment the failing step raises, before the
`except` clause runs: which attributes `start` has assigned so far, per the
source order (tunnel assigned at line 103, started at 111; ssh client
assigned at 114, connected at 117-122). -/
def acquiredAt (s : ServiceState) : StartFailure → ServiceState
  | .tunnelCreate => s
  | .tunnelStart => { s with tunnel := some false }
  | .sshConnect => { s with tunnel := some true, ssh_client := some false }
  | .execKill => { s with tunnel := some true, ssh_client := some true }
  | .execLaunch => { s with tunnel := some true, ssh_client := some true }
  | .noFailure => { s with tunnel := some true, ssh_client := some true }

/-- `DataProxyService.start` (lines 98-136).  The returned `Bool` is whether
an exception propagates to the caller: the `except Exception` clause
(lines 133-136) runs `await self.stop()` and then re-raises. -/
def start (s : ServiceState) (f : StartFailure) : ServiceState × Bool :=
  match f with
  | .noFailure => (acquiredAt s .noFailure, false)
  | f => (stop (acquiredAt s f), true)

/-- No resource held: httpx client closed, any assigned ssh client closed,
any assigned tunnel stopped. -/
def allReleased (s : ServiceState) : Bool :=
  !s.client_open && !(s.ssh_client.getD false) && !(s.tunnel.getD false)

/-! ## Remote process controller (lines 124-129)

`pkill -f PATTERN` matches the pattern as an (extended) regular expression
anywhere in a process's full command line.  The patterns the source builds
contain only literal characters and `.` (which matches any single character),
so the matcher below handles exactly those. -/

/-- One pattern character against one input character: `.` is a wildcard,
everything else is literal. -/
def chMatch (p c : Char) : Bool :=
  p == '.' || p == c

/-- Match the whole pattern starting at the head of the input. -/
def matchHere : List Char → List Char → Bool
  | [], _ => true
  | _ :: _, [] => false
  | p :: ps, c :: cs => chMatch p c && matchHere ps cs

/-- `re.search` semantics: the pattern may match at any position. -/
def reSearch (pat : List Char) : List Char → Bool
  | [] => matchHere pat []
  | c :: cs => matchHere pat (c :: cs) || reSearch pat cs

/-- Whether `pkill -f pat` would kill a process whose command line is
`cmdline`. -/
def pkillMatches (pat cmdline : String) : Bool :=
  reSearch pat.toList cmdline.toList

/-- The pattern passed to `pkill -f` at line 125:
`python -m http.server {self.settings.remote_port}`. -/
def killPattern (remote_port : Nat) : String :=
  "python -m http.server " ++ toString remote_port

/-- The command line of the file-server process the launch command at
line 128 creates: the remote shell runs
`cd {data_path} && python3 -m http.server {remote_port} > /dev/null 2>&1 &`,
so the server process itself has command line
`python3 -m http.server {remote_port}`. -/
def launchedCmdline (remote_port : Nat) : String :=
  "python3 -m http.server " ++ toString remote_port

/-- One request step at the service level: the handler (lines 161-182) reads
only `proxy_service.settings.local_port`, opens its own per-request httpx
client in an `async with` block, and assigns nothing on the service, so the
service state passes through unchanged. -/
def handleRequest (s : ServiceState) (fetch : FetchResult) :
    ServiceState × ProxyResult :=
  (s, proxy_data fetch)

/-! ## Concrete fixtures used by witnesses and counterexamples -/

/-- An SSH config file with no entry for any host: every lookup returns the
all-defaults entry (paramiko returns only the alias itself in that case). -/
def lookupEmpty : String → HostEntry := fun _ => {}

/-- A config file whose every alias resolves to hostname 10.0.0.5, user
alice. -/
def lookupProd : String → HostEntry :=
  fun _ => { hostname := some "10.0.0.5", user := some "alice" }

def aliasOnlySettings : Settings :=
  { ssh_host_alias := some "myhost", data_path := "/srv/data" }

def prodSettings : Settings :=
  { ssh_host_alias := some "prod", data_path := "/srv/data" }

def emptyAliasSettings : Settings :=
  { ssh_host_alias := some ""
    ssh_host := some "198.51.100.7"
    ssh_username := some "bob"
    data_path := "/srv/data" }

def resp404 : UpstreamResponse :=
  { status_code := 404, headers := [], body := [] }

def resp403 : UpstreamResponse :=
  { status_code := 403
    headers := [("content-type", "text/html")]
    body := [60, 104, 49, 62] }

def respOk : UpstreamResponse :=
  { status_code := 200
    headers := [("Content-Type", "application/pdf"),
                ("Content-Length", "10485760"),
                ("Server", "SimpleHTTP")]
    body := [37, 80, 68, 70] }

/-! ## Shared lemmas -/

/-- After `stop`, every resource is released, whatever the prior state. -/
theorem allReleased_stop (s : ServiceState) : allReleased (stop s) = true := by
  rcases s with ⟨c, sc, t⟩
  rcases sc with _ | b <;> rcases t with _ | b' <;> simp [stop, allReleased]

/-! ## Claims -/

/-- C1: the claim says `GET /data/{path}` streams with memory bounded by a
constant independent of file size.  The code calls `await client.get(url)`
(line 166) without `stream=True`, which reads the whole upstream body into
`response.content` before the handler builds its response, so the handler's
buffered bytes equal the full body size: 10485760 bytes for a 10MB file, and
no constant bounds it over all fetches. -/
theorem c1_full_body_buffered :
    handlerBufferedBytes (FetchResult.ok
      { status_code := 200
        headers := [("content-type", "application/pdf")]
        body := List.replicate 10485760 0 }) = 10485760 ∧
    ∀ C : Nat, ∃ fetch : FetchResult, C < handlerBufferedBytes fetch := by
  refine ⟨List.length_replicate 10485760 0, fun C => ?_⟩
  refine ⟨FetchResult.ok ⟨200, [], List.replicate (C + 1) 0⟩, ?_⟩
  show C < (List.replicate (C + 1) (0 : Nat)).length
  rw [List.length_replicate]
  exact Nat.lt_succ_self C

/-- C2: an upstream 404 makes the handler raise
`HTTPException(404, "File not found")` (lines 168-169); the surrounding
`except httpx.HTTPError` clause does not catch `HTTPException`, so the caller
sees exactly 404 with detail "File not found". -/
theorem c2_upstream_404_propagates (resp : UpstreamResponse)
    (h : resp.status_code = 404) :
    proxy_data (.ok resp) = .httpError 404 "File not found" := by
  simp only [proxy_data]
  rw [if_pos (by simpa using h)]

theorem c2_upstream_404_propagates_witness :
    proxy_data (.ok resp404) = .httpError 404 "File not found" :=
  c2_upstream_404_propagates resp404 rfl

/-- C3: on any non-404 upstream response the caller gets a streaming response
whose media type is the upstream content-type, whose header list is exactly
the upstream headers minus content-length: no forwarded header is a
content-length, and every other upstream header is forwarded. -/
theorem c3_headers_forwarded_minus_content_length (resp : UpstreamResponse)
    (h : resp.status_code ≠ 404) :
    proxy_data (.ok resp) =
      .stream 200 (headerGet resp.headers "content-type")
        (forwardedHeaders resp.headers) resp.body ∧
    (∀ kv ∈ forwardedHeaders resp.headers, ¬ kv.1.toLower = "content-length") ∧
    (∀ kv ∈ resp.headers,
      ¬ kv.1.toLower = "content-length" → kv ∈ forwardedHeaders resp.headers) := by
  refine ⟨?_, ?_, ?_⟩
  · simp only [proxy_data]
    rw [if_neg (by simpa using h)]
  · intro kv hkv
    simp only [forwardedHeaders, List.mem_filter, decide_not] at hkv
    simpa using hkv.2
  · intro kv hkv hne
    simp only [forwardedHeaders, List.mem_filter, decide_not]
    exact ⟨hkv, by simpa using hne⟩

theorem c3_headers_forwarded_minus_content_length_witness :
    proxy_data (.ok respOk) =
      .stream 200 (headerGet respOk.headers "content-type")
        (forwardedHeaders respOk.headers) respOk.body ∧
    (∀ kv ∈ forwardedHeaders respOk.headers, ¬ kv.1.toLower = "content-length") ∧
    (∀ kv ∈ respOk.headers,
      ¬ kv.1.toLower = "content-length" → kv ∈ forwardedHeaders respOk.headers) :=
  c3_headers_forwarded_minus_content_length respOk (by decide)

/-- C4: an `httpx.HTTPError` from the upstream fetch is turned into
`HTTPException(500, str(e))` (lines 180-182), and the service state is
untouched: the handler owns no service-wide mutable state (it opens and
closes a per-request client). -/
theorem c4_transport_error_500 (s : ServiceState) (e : String) :
    handleRequest s (.transportError e) = (s, .httpError 500 e) := rfl

/-- C5: any upstream status other than 404 — including 403 or 500 — takes
the success path: the caller receives a `StreamingResponse` with status 200
and the upstream body; the upstream status code appears nowhere in the
result. -/
theorem c5_non_404_status_not_propagated (resp : UpstreamResponse)
    (h : resp.status_code ≠ 404) :
    proxy_data (.ok resp) =
      .stream 200 (headerGet resp.headers "content-type")
        (forwardedHeaders resp.headers) resp.body := by
  simp only [proxy_data]
  rw [if_neg (by simpa using h)]

theorem c5_non_404_status_not_propagated_witness :
    proxy_data (.ok resp403) =
      .stream 200 (headerGet resp403.headers "content-type")
        (forwardedHeaders resp403.headers) resp403.body :=
  c5_non_404_status_not_propagated resp403 (by decide)

/-- C6 counterexample: the code defines no ConfigError and the resolver is a
total function that never fails, yet it can produce a spec with a missing
username: with an alias set but no `User` entry in the SSH config file
(`host_config.get('user')` at line 66 returns `None`), the resolved spec has
`username = None` and no error is raised. -/
theorem c6_counterexample_missing_username :
    (serviceGetSshConfig lookupEmpty aliasOnlySettings).username = none := by
  rfl

/-- C6 amended: the resolver is total and never raises (no ConfigError exists
in the code); on the alias branch the hostname is always present — the config
hostname, defaulting to the alias itself — while the username is whatever
`User` entry the config has and may be absent; on the explicit branch hostname
and username are exactly the possibly-absent supplied settings. -/
theorem c6_amended_resolver_total (lookup : String → HostEntry) (st : Settings) :
    (aliasBranchTaken st = true →
      (serviceGetSshConfig lookup st).hostname =
        some ((lookup (st.ssh_host_alias.getD "")).hostname.getD
          (st.ssh_host_alias.getD "")) ∧
      (serviceGetSshConfig lookup st).username =
        (lookup (st.ssh_host_alias.getD "")).user) ∧
    (aliasBranchTaken st = false →
      (serviceGetSshConfig lookup st).hostname = st.ssh_host ∧
      (serviceGetSshConfig lookup st).username = st.ssh_username) := by
  constructor
  · intro hA
    simp [serviceGetSshConfig, get_ssh_config, hA]
  · intro hA
    simp [serviceGetSshConfig, hA]

theorem c6_amended_resolver_total_witness :
    (serviceGetSshConfig lookupProd prodSettings).hostname = some "10.0.0.5" ∧
    (serviceGetSshConfig lookupProd prodSettings).username = some "alice" := by
  have h := (c6_amended_resolver_total lookupProd prodSettings).1 (by decide)
  exact ⟨h.1.trans rfl, h.2⟩

/-- C7 counterexample: with `ssh_host_alias = Some ""`, the resolver's
truthiness test (`if self.settings.ssh_host_alias:`, line 85) takes the
explicit-parameter branch, but `/health` reports
`using_ssh_config = (ssh_host_alias is not None) = true` (line 192): the flag
is true although the alias-based resolution path was not used (the reported
hostname/username are the explicit parameters). -/
theorem c7_counterexample_empty_alias :
    (health_check lookupEmpty emptyAliasSettings).using_ssh_config = true ∧
    aliasBranchTaken emptyAliasSettings = false ∧
    (health_check lookupEmpty emptyAliasSettings).hostname = some "198.51.100.7" ∧
    (health_check lookupEmpty emptyAliasSettings).username = some "bob" := by
  exact ⟨rfl, rfl, rfl, rfl⟩

/-- C7 amended: provided any supplied alias is non-empty (`ssh_host_alias ≠
Some ""`), `/health` reports `using_ssh_config = true` exactly when the
alias-resolution branch was taken, with hostname/username equal to the
alias-resolved values on that branch and to the supplied explicit parameters
otherwise.  (When the alias is the empty string the flag is true even though
the explicit branch was used.) -/
theorem c7_amended_health_reflects_config (lookup : String → HostEntry)
    (st : Settings) (h : st.ssh_host_alias ≠ some "") :
    ((health_check lookup st).using_ssh_config = true ↔
      aliasBranchTaken st = true) ∧
    (aliasBranchTaken st = true →
      (health_check lookup st).hostname =
        (get_ssh_config lookup (st.ssh_host_alias.getD "")).hostname ∧
      (health_check lookup st).username =
        (get_ssh_config lookup (st.ssh_host_alias.getD "")).username) ∧
    (aliasBranchTaken st = false →
      (health_check lookup st).hostname = st.ssh_host ∧
      (health_check lookup st).username = st.ssh_username) := by
  rcases hA : st.ssh_host_alias with _ | a
  · refine ⟨?_, ?_, ?_⟩
    · simp [health_check, aliasBranchTaken, optStrTruthy, hA]
    · intro hT
      simp [aliasBranchTaken, optStrTruthy, hA] at hT
    · intro _
      simp [health_check, serviceGetSshConfig, aliasBranchTaken, optStrTruthy, hA]
  · have ha : a ≠ "" := fun he => h (by rw [hA, he])
    refine ⟨?_, ?_, ?_⟩
    · simp [health_check, aliasBranchTaken, optStrTruthy, hA, ha]
    · intro _
      simp [health_check, serviceGetSshConfig, aliasBranchTaken, optStrTruthy,
        hA, ha]
    · intro hF
      simp [aliasBranchTaken, optStrTruthy, hA, ha] at hF

theorem c7_amended_health_reflects_config_witness :
    ((health_check lookupProd prodSettings).using_ssh_config = true ↔
      aliasBranchTaken prodSettings = true) ∧
    (aliasBranchTaken prodSettings = true →
      (health_check lookupProd prodSettings).hostname =
        (get_ssh_config lookupProd (prodSettings.ssh_host_alias.getD "")).hostname ∧
      (health_check lookupProd prodSettings).username =
        (get_ssh_config lookupProd (prodSettings.ssh_host_alias.getD "")).username) ∧
    (aliasBranchTaken prodSettings = false →
      (health_check lookupProd prodSettings).hostname = prodSettings.ssh_host ∧
      (health_check lookupProd prodSettings).username = prodSettings.ssh_username) :=
  c7_amended_health_reflects_config lookupProd prodSettings (by decide)

/-- C8: the claim says the termination command's pattern matches the command
line of a file server previously launched by this controller.  It does not:
the `pkill -f` pattern at line 125 is `python -m http.server {port}` while the
launch at line 128 runs `python3 -m http.server {port}`, and the pattern
(interpreted as a regex, `.` a wildcard) matches that command line nowhere —
prior instances launched by this controller survive the kill, contradicting
the code's own comment "Kill any existing Python HTTP servers on the remote
port" (line 124). -/
theorem c8_kill_pattern_misses_launched_server :
    pkillMatches (killPattern 8001) (launchedCmdline 8001) = false := by
  decide

/-- C9: if any step of `start` fails — tunnel construction, tunnel start, SSH
connect, or either remote command — the `except` clause (lines 133-136) runs
the full `stop` teardown on exactly the resources acquired so far and then
re-raises, so the error propagates with every resource released. -/
theorem c9_start_failure_teardown (s : ServiceState) (f : StartFailure)
    (h : f ≠ .noFailure) :
    start s f = (stop (acquiredAt s f), true) ∧
    allReleased (start s f).1 = true := by
  cases f
  case noFailure => exact absurd rfl h
  all_goals exact ⟨rfl, allReleased_stop _⟩

theorem c9_start_failure_teardown_witness :
    start initState .sshConnect =
      (stop (acquiredAt initState .sshConnect), true) ∧
    allReleased (start initState .sshConnect).1 = true :=
  c9_start_failure_teardown initState .sshConnect (by decide)

/-- C10: `stop` is total in the model (each underlying close is non-raising,
including on a never-started instance where `ssh_client` and `tunnel` are
still `None`), a second `stop` is a no-op, after a `stop` no client, SSH
session or tunnel resource remains open, and `stop` on a never-started
instance just closes the httpx client. -/
theorem c10_stop_idempotent (s : ServiceState) :
    stop (stop s) = stop s ∧ allReleased (stop s) = true ∧
    stop initState =
      { client_open := false, ssh_client := none, tunnel := none } := by
  refine ⟨?_, allReleased_stop s, rfl⟩
  rcases s with ⟨c, sc, t⟩
  rcases sc with _ | b <;> rcases t with _ | b' <;> simp [stop]

end DataStream
